import Mathlib

/-
Verification of the melange mint contract's position lifecycle
(src/contracts/mint/src/positions.rs, state.rs, contract.rs).

Shallow embedding conventions:
  * `Uint128` values are `Nat`s; operations check the `2 ^ 128` bound
    explicitly.  cosmwasm's `Uint128` addition and `Uint128 * Decimal`
    multiplication panic on overflow, while `checked_sub` returns a
    structured error; both behaviours are modelled by the `Outcome` monad,
    which distinguishes `ok`, `err` (a `StdResult` error) and `panic`
    (an unrecoverable abort).
  * `Decimal` values are `Nat` numerators over the fixed denominator
    `10 ^ 18` (cosmwasm's `DECIMAL_FRACTIONAL`).
  * Storage (`cosmwasm_storage` buckets and singletons) becomes the
    `State` structure; the external price oracle and collateral oracle
    are function-valued fields of the same structure, read but never
    written by the operations.
  * The host environment commits a call's storage writes all-or-nothing,
    so every operation is a pure function from the pre-state to an
    `Outcome` of (post-state, outbound messages); a failing call yields
    no post-state at all.
  * Repository modules missing from the provided sources (math.rs,
    asserts.rs, querier.rs) are modelled from the specification; each such
    definition carries a doc comment starting with `Modelled from the
    spec:`.
-/

namespace Melange

/-- Result of a contract call: a value, a structured `StdResult` error,
or an unrecoverable panic. -/
inductive Outcome (α : Type) where
  | ok : α → Outcome α
  | err : String → Outcome α
  | panic : String → Outcome α
deriving DecidableEq, Repr

def Outcome.bindO {α β : Type} : Outcome α → (α → Outcome β) → Outcome β
  | Outcome.ok a, f => f a
  | Outcome.err e, _ => Outcome.err e
  | Outcome.panic m, _ => Outcome.panic m

instance : Monad Outcome where
  pure := Outcome.ok
  bind := Outcome.bindO

@[simp] theorem Outcome.ok_bind {α β : Type} (a : α) (f : α → Outcome β) :
    (Outcome.ok a : Outcome α) >>= f = f a := rfl

@[simp] theorem Outcome.err_bind {α β : Type} (e : String) (f : α → Outcome β) :
    (Outcome.err e : Outcome α) >>= f = Outcome.err e := rfl

@[simp] theorem Outcome.panic_bind {α β : Type} (e : String) (f : α → Outcome β) :
    (Outcome.panic e : Outcome α) >>= f = Outcome.panic e := rfl

theorem Outcome.bind_eq_ok {α β : Type} {o : Outcome α} {f : α → Outcome β} {b : β} :
    o >>= f = Outcome.ok b ↔ ∃ a, o = Outcome.ok a ∧ f a = Outcome.ok b := by
  cases o with
  | ok a => simp [Outcome.ok_bind]
  | err e => simp [Outcome.err_bind]
  | panic m => simp [Outcome.panic_bind]

/-- cosmwasm `DECIMAL_FRACTIONAL`: `Decimal` values are numerators over
this denominator. -/
def decFrac : Nat := 10 ^ 18

/-- Exclusive upper bound of `Uint128`. -/
def u128Bound : Nat := 2 ^ 128

/-- The `Decimal` 1.0. -/
def oneDec : Nat := decFrac

/-- cosmwasm `Uint128` addition (`+` / `+=`): panics on overflow. -/
def addU (a b : Nat) : Outcome Nat :=
  if a + b < u128Bound then Outcome.ok (a + b)
  else Outcome.panic ("attempt to add with overflow")

/-- cosmwasm `Uint128::checked_sub`, surfaced through `?` as a
`StdResult` error on underflow. -/
def checked_sub (a b : Nat) : Outcome Nat :=
  if b ≤ a then Outcome.ok (a - b)
  else Outcome.err ("Cannot Sub with given operands")

/-- cosmwasm `Uint128 * Decimal`: floor of the product, panics on
overflow past `Uint128`. -/
def mulDec (u d : Nat) : Outcome Nat :=
  if u * d / decFrac < u128Bound then Outcome.ok (u * d / decFrac)
  else Outcome.panic ("multiplication overflow")

/-- Modelled from the spec: `decimal_division` from the math module
(missing from the provided sources), a fixed-point division that fails
with an `ArithmeticError` on division by zero or overflow, never
silently saturating or wrapping. -/
def decimal_division (a b : Nat) : Outcome Nat :=
  if b = 0 then Outcome.err ("ArithmeticError: division by zero")
  else if a * decFrac / b < u128Bound then Outcome.ok (a * decFrac / b)
  else Outcome.err ("ArithmeticError: overflow")

/-- Modelled from the spec: `decimal_multiplication` from the math module
(missing from the provided sources), a fixed-point multiplication that
fails with an `ArithmeticError` on overflow. -/
def decimal_multiplication (a b : Nat) : Outcome Nat :=
  if a * b / decFrac < u128Bound then Outcome.ok (a * b / decFrac)
  else Outcome.err ("ArithmeticError: overflow")

/-- Modelled from the spec: `reverse_decimal` from the math module
(missing from the provided sources), the fixed-point reciprocal. -/
def reverse_decimal (a : Nat) : Outcome Nat :=
  decimal_division oneDec a

/-- `AssetInfoRaw` / `AssetInfo`: a token-contract asset or a native
denomination. -/
inductive AssetInfo where
  | token : String → AssetInfo
  | native : String → AssetInfo
deriving DecidableEq, Repr

/-- `Asset` / `AssetRaw`: an asset identity with an amount. -/
structure Asset where
  info : AssetInfo
  amount : Nat
deriving DecidableEq, Repr

/-- `Position` from state.rs. -/
structure Position where
  idx : Nat
  owner : String
  collateral : Asset
  asset : Asset
deriving DecidableEq, Repr

/-- `AssetConfig` from state.rs: the synthetic token identity, its
minimum collateral ratio, and the optional delisting end price. -/
structure AssetConfig where
  token : String
  min_collateral_ratio : Nat
  end_price : Option Nat
deriving DecidableEq, Repr

/-- One quote of the external price oracle (spec section 4.2). -/
structure AssetOracleEntry where
  price : Nat
  fresh : Bool
deriving DecidableEq, Repr

/-- One quote of the external collateral oracle: price, risk multiplier
and revoked flag (spec section 4.2). -/
structure CollateralOracleEntry where
  price : Nat
  multiplier : Nat
  revoked : Bool
  fresh : Bool
deriving DecidableEq, Repr

/-- The contract storage of state.rs (position bucket, the two index
buckets, the position-id singleton and the asset-config bucket) together
with the read-only external oracles. -/
structure State where
  positions : Nat → Option Position
  indexByUser : String → Nat → Bool
  indexByAsset : AssetInfo → Nat → Bool
  positionIdx : Nat
  assetConfigs : String → Option AssetConfig
  assetOracle : AssetInfo → Option AssetOracleEntry
  collOracle : AssetInfo → Option CollateralOracleEntry

/-- Outbound instructions built by the operations: a cw20 `Mint` to a
recipient, or a collateral transfer (`Asset::into_msg`). -/
inductive Msg where
  | mintTo : String → String → Nat → Msg
  | transfer : Asset → String → Msg
deriving DecidableEq, Repr

/-- `read_position` (state.rs `read_position` via `Bucket::load`). -/
def read_position (st : State) (idx : Nat) : Outcome Position :=
  match st.positions idx with
  | some p => Outcome.ok p
  | none => Outcome.err ("no position data stored")

/-- `store_position` from state.rs: overwrite the position bucket at
`idx`, leaving the indices untouched. -/
def store_position (st : State) (idx : Nat) (p : Position) : State :=
  { st with positions := fun i => if i = idx then some p else st.positions i }

/-- `create_position` from state.rs: write the position and both
secondary index entries in one logical unit. -/
def create_position (st : State) (idx : Nat) (p : Position) : State :=
  { st with
    positions := fun i => if i = idx then some p else st.positions i
    indexByUser := fun o i =>
      if o = p.owner ∧ i = idx then true else st.indexByUser o i
    indexByAsset := fun a i =>
      if a = p.asset.info ∧ i = idx then true else st.indexByAsset a i }

/-- `read_asset_config` from state.rs. -/
def read_asset_config (st : State) (tok : String) : Outcome AssetConfig :=
  match st.assetConfigs tok with
  | some c => Outcome.ok c
  | none => Outcome.err ("no asset data stored")

/-- `read_position_idx` from state.rs. -/
def read_position_idx (st : State) : Nat := st.positionIdx

/-- `store_position_idx` from state.rs. -/
def store_position_idx (st : State) (idx : Nat) : State :=
  { st with positionIdx := idx }

/-- The `if cond { return Err(StdError::generic_err(..)) }` idiom of
positions.rs: fail with the given message when the condition holds. -/
def failIf (c : Prop) [Decidable c] (e : String) : Outcome Unit :=
  if c then Outcome.err e else Outcome.ok ()

/-- The `match asset.info { Token { .. } => .., _ => panic!(..) }` idiom
repeated in open_position, withdraw and mint. -/
def asset_token_of (a : AssetInfo) : Outcome String :=
  match a with
  | AssetInfo.token addr => Outcome.ok addr
  | AssetInfo.native _ => Outcome.panic ("DO NOT ENTER HERE")

/-- Modelled from the spec: `load_asset_price` from the querier module
(missing from the provided sources); queries the price oracle, failing
with `PriceUnavailable` when there is no quote and with `StalePrice`
when freshness is required but the quote is stale. -/
def load_asset_price (st : State) (info : AssetInfo) (strict : Bool) : Outcome Nat :=
  match st.assetOracle info with
  | none => Outcome.err ("PriceUnavailable")
  | some e => if strict && !e.fresh then Outcome.err ("StalePrice") else Outcome.ok e.price

/-- Modelled from the spec: `load_collateral_info` from the querier
module (missing from the provided sources); queries the collateral
oracle for (price, risk multiplier, revoked flag), failing with
`PriceUnavailable` when there is no quote and with `StalePrice` when
freshness is required but the quote is stale. -/
def load_collateral_info (st : State) (info : AssetInfo) (strict : Bool) :
    Outcome (Nat × Nat × Bool) :=
  match st.collOracle info with
  | none => Outcome.err ("PriceUnavailable")
  | some e =>
    if strict && !e.fresh then Outcome.err ("StalePrice")
    else Outcome.ok (e.price, e.multiplier, e.revoked)

/-- Modelled from the spec: `assert_revoked_collateral` from the asserts
module (missing from the provided sources); rejects a revoked collateral
asset and forwards (price, multiplier). -/
def assert_revoked_collateral (t : Nat × Nat × Bool) : Outcome (Nat × Nat) :=
  if t.2.2 then Outcome.err ("AssetRevoked") else Outcome.ok (t.1, t.2.1)

/-- Modelled from the spec: `assert_migrated_asset` from the asserts
module (missing from the provided sources); fails with `AssetMigrated`
when the asset config's end price is set. -/
def assert_migrated_asset (c : AssetConfig) : Outcome Unit :=
  if c.end_price.isSome then Outcome.err ("AssetMigrated") else Outcome.ok ()

/-- Modelled from the spec: `assert_collateral` from the asserts module
(missing from the provided sources); per the source comment at its call
site, checks the given collateral has the same asset info as the
position's collateral and a non-zero amount. -/
def assert_collateral (pos : Position) (collateral : Asset) : Outcome Unit :=
  if collateral.info = pos.collateral.info ∧ collateral.amount ≠ 0 then Outcome.ok ()
  else Outcome.err ("Wrong collateral")

/-- Modelled from the spec: `assert_asset` from the asserts module
(missing from the provided sources); checks the given synthetic asset
matches the position's synthetic asset and has a non-zero amount. -/
def assert_asset (pos : Position) (asset : Asset) : Outcome Unit :=
  if asset.info = pos.asset.info ∧ asset.amount ≠ 0 then Outcome.ok ()
  else Outcome.err ("Wrong asset")

/-- `open_position` from positions.rs. -/
def open_position (st : State) (sender : String) (collateral : Asset)
    (asset_info : AssetInfo) (collateral_ratio : Nat) : Outcome (State × List Msg) := do
  let _ ← failIf (collateral.amount = 0) ("Wrong collateral")
  let ci ← load_collateral_info st collateral.info true
  let pm ← assert_revoked_collateral ci
  let asset_token ← asset_token_of asset_info
  let asset_config ← read_asset_config st asset_token
  let _ ← assert_migrated_asset asset_config
  let minRatio ← decimal_multiplication asset_config.min_collateral_ratio pm.2
  let _ ← failIf (collateral_ratio < minRatio)
    ("Can not open a position with low collateral ratio than minimum")
  let asset_price ← load_asset_price st asset_info true
  let asset_price_in_collateral_asset ← decimal_division pm.1 asset_price
  let rd ← reverse_decimal collateral_ratio
  let t ← mulDec collateral.amount asset_price_in_collateral_asset
  let mint_amount ← mulDec t rd
  let _ ← failIf (mint_amount = 0) ("collateral is too small")
  let position_idx := read_position_idx st
  let st1 := create_position st position_idx
    { idx := position_idx
      owner := sender
      collateral := { info := collateral.info, amount := collateral.amount }
      asset := { info := asset_info, amount := mint_amount } }
  let newIdx ← addU position_idx 1
  let st2 := store_position_idx st1 newIdx
  Outcome.ok (st2, [Msg.mintTo asset_config.token sender mint_amount])

/-- `deposit` from positions.rs. -/
def deposit (st : State) (sender : String) (position_idx : Nat)
    (collateral : Asset) : Outcome (State × List Msg) := do
  let position ← read_position st position_idx
  let _ ← failIf (sender ≠ position.owner) ("unauthorized")
  let _ ← assert_collateral position collateral
  let ci ← load_collateral_info st position.collateral.info false
  let _ ← assert_revoked_collateral ci
  let contract_addr ← asset_token_of position.asset.info
  let asset_config ← read_asset_config st contract_addr
  let _ ← assert_migrated_asset asset_config
  let newAmt ← addU position.collateral.amount collateral.amount
  let position1 :=
    { position with collateral := { position.collateral with amount := newAmt } }
  let st1 := store_position st position_idx position1
  Outcome.ok (st1, [])

/-- `withdraw` from positions.rs.  Note the persistence write
(`store_position`) happens only inside the branch where both remaining
balances are zero, exactly as in the source. -/
def withdraw (st : State) (sender : String) (position_idx : Nat)
    (collateralOpt : Option Asset) : Outcome (State × List Msg) := do
  let position ← read_position st position_idx
  let _ ← failIf (sender ≠ position.owner) ("unauthorized")
  let collateral ←
    match collateralOpt with
    | some c => do
        let _ ← assert_collateral position c
        let _ ← failIf (position.collateral.amount < c.amount)
          ("Cannot withdraw more than you provide")
        Outcome.ok c
    | none => Outcome.ok position.collateral
  let asset_token ← asset_token_of position.asset.info
  let asset_config ← read_asset_config st asset_token
  let asset_price ← load_asset_price st position.asset.info true
  let ci ← load_collateral_info st position.collateral.info true
  let collateral_multiplier := if asset_config.end_price.isSome then oneDec else ci.2.1
  let collateral_amount ← checked_sub position.collateral.amount collateral.amount
  let d ← decimal_division asset_price ci.1
  let asset_value_in_collateral_asset ← mulDec position.asset.amount d
  let v1 ← mulDec asset_value_in_collateral_asset asset_config.min_collateral_ratio
  let v2 ← mulDec v1 collateral_multiplier
  let _ ← failIf (collateral_amount < v2)
    ("Cannot withdraw collateral over than minimum collateral ratio")
  let position1 :=
    { position with collateral := { position.collateral with amount := collateral_amount } }
  let st1 := if collateral_amount = 0 ∧ position.asset.amount = 0 then
      store_position st position_idx position1
    else st
  Outcome.ok (st1, [Msg.transfer collateral position.owner])

/-- `mint` from positions.rs. -/
def mint (st : State) (sender : String) (position_idx : Nat)
    (asset : Asset) : Outcome (State × List Msg) := do
  let mint_amount := asset.amount
  let position ← read_position st position_idx
  let _ ← failIf (sender ≠ position.owner) ("unauthorized")
  let _ ← assert_asset position asset
  let asset_token ← asset_token_of position.asset.info
  let asset_config ← read_asset_config st asset_token
  let _ ← assert_migrated_asset asset_config
  let ci ← load_collateral_info st position.collateral.info true
  let pm ← assert_revoked_collateral ci
  let asset_price ← load_asset_price st position.asset.info true
  let asset_amount ← addU mint_amount position.asset.amount
  let d ← decimal_division asset_price pm.1
  let asset_value_in_collateral_asset ← mulDec asset_amount d
  let v1 ← mulDec asset_value_in_collateral_asset asset_config.min_collateral_ratio
  let v2 ← mulDec v1 pm.2
  let _ ← failIf (position.collateral.amount < v2)
    ("Cannot mint asset over than min collateral ratio")
  let newAmt ← addU position.asset.amount mint_amount
  let position1 := { position with asset := { position.asset with amount := newAmt } }
  let st1 := store_position st position_idx position1
  Outcome.ok (st1, [Msg.mintTo asset_config.token position.owner mint_amount])

/-- One lifecycle call with its arguments. -/
inductive Op where
  | openPos : String → Asset → AssetInfo → Nat → Op
  | depositOp : String → Nat → Asset → Op
  | withdrawOp : String → Nat → Option Asset → Op
  | mintOp : String → Nat → Asset → Op

/-- Dispatch one lifecycle call. -/
def step (st : State) : Op → Outcome (State × List Msg)
  | Op.openPos s c a r => open_position st s c a r
  | Op.depositOp s i c => deposit st s i c
  | Op.withdrawOp s i c => withdraw st s i c
  | Op.mintOp s i a => mint st s i a

/-- Apply one lifecycle call under the host's all-or-nothing commit: a
failing call (error or panic) leaves the state unchanged. -/
def applyOp (st : State) (op : Op) : State :=
  match step st op with
  | Outcome.ok (st', _) => st'
  | Outcome.err _ => st
  | Outcome.panic _ => st

/-- `instantiate` from contract.rs: empty ledger and indices, position
counter starting at 1; the asset registry and the two oracles are
external collaborators given as parameters. -/
def instantiate (ac : String → Option AssetConfig)
    (ao : AssetInfo → Option AssetOracleEntry)
    (co : AssetInfo → Option CollateralOracleEntry) : State :=
  { positions := fun _ => none
    indexByUser := fun _ _ => false
    indexByAsset := fun _ _ => false
    positionIdx := 1
    assetConfigs := ac
    assetOracle := ao
    collOracle := co }

theorem read_position_eq_ok {st : State} {i : Nat} {p : Position} :
    read_position st i = Outcome.ok p ↔ st.positions i = some p := by
  unfold read_position
  cases h : st.positions i <;> simp

theorem read_asset_config_eq_ok {st : State} {tok : String} {c : AssetConfig} :
    read_asset_config st tok = Outcome.ok c ↔ st.assetConfigs tok = some c := by
  unfold read_asset_config
  cases h : st.assetConfigs tok <;> simp

theorem failIf_eq_ok {c : Prop} [Decidable c] {e : String} {u : Unit} :
    failIf c e = Outcome.ok u ↔ ¬ c := by
  unfold failIf
  by_cases hc : c <;> simp [hc]

theorem assert_collateral_eq_ok {pos : Position} {c : Asset} {u : Unit} :
    assert_collateral pos c = Outcome.ok u ↔
      (c.info = pos.collateral.info ∧ c.amount ≠ 0) := by
  unfold assert_collateral
  by_cases h : (c.info = pos.collateral.info ∧ c.amount ≠ 0) <;> simp [h]

theorem assert_asset_eq_ok {pos : Position} {a : Asset} {u : Unit} :
    assert_asset pos a = Outcome.ok u ↔
      (a.info = pos.asset.info ∧ a.amount ≠ 0) := by
  unfold assert_asset
  by_cases h : (a.info = pos.asset.info ∧ a.amount ≠ 0) <;> simp [h]

theorem assert_migrated_eq_ok {c : AssetConfig} {u : Unit} :
    assert_migrated_asset c = Outcome.ok u ↔ c.end_price.isSome = false := by
  unfold assert_migrated_asset
  cases h : c.end_price.isSome <;> simp [h]

theorem assert_revoked_eq_ok {t : Nat × Nat × Bool} {pm : Nat × Nat} :
    assert_revoked_collateral t = Outcome.ok pm ↔
      (t.2.2 = false ∧ pm = (t.1, t.2.1)) := by
  unfold assert_revoked_collateral
  cases h : t.2.2 <;> simp [h, eq_comm]

theorem asset_token_of_eq_ok {a : AssetInfo} {tok : String} :
    asset_token_of a = Outcome.ok tok ↔ a = AssetInfo.token tok := by
  cases a <;> simp [asset_token_of]

theorem addU_eq_ok {a b v : Nat} :
    addU a b = Outcome.ok v ↔ (a + b < u128Bound ∧ v = a + b) := by
  unfold addU
  by_cases h : a + b < u128Bound <;> simp [h, eq_comm]

theorem checked_sub_eq_ok {a b v : Nat} :
    checked_sub a b = Outcome.ok v ↔ (b ≤ a ∧ v = a - b) := by
  unfold checked_sub
  by_cases h : b ≤ a <;> simp [h, eq_comm]

/-- Success shape of `open_position`: the post-state is the creation of
the new position (record plus both indices) at the pre-state's counter
value, followed by the counter bump to counter + 1. -/
theorem open_position_ok_shape {st : State} {s : String} {c : Asset}
    {a : AssetInfo} {r : Nat} {st' : State} {msgs : List Msg}
    (h : open_position st s c a r = Outcome.ok (st', msgs)) :
    ∃ ma tok acfg, a = AssetInfo.token tok ∧ st.assetConfigs tok = some acfg ∧
      ma ≠ 0 ∧
      msgs = [Msg.mintTo acfg.token s ma] ∧
      st' = store_position_idx
        (create_position st st.positionIdx
          { idx := st.positionIdx
            owner := s
            collateral := { info := c.info, amount := c.amount }
            asset := { info := a, amount := ma } })
        (st.positionIdx + 1) := by
  unfold open_position at h
  simp only [Outcome.bind_eq_ok, failIf_eq_ok, asset_token_of_eq_ok,
    read_asset_config_eq_ok, assert_migrated_eq_ok, assert_revoked_eq_ok,
    addU_eq_ok, read_position_idx, Outcome.ok.injEq, Prod.mk.injEq] at h
  obtain ⟨u0, hu0, ci, hci, pm, ⟨hrev, hpm⟩, tok, htok, acfg, hacfg, u1, hmig,
    minR, hminR, u2, hu2, ap, hap, dv, hdv, rv, hrv, t, ht, ma, hma, u3, hma0,
    nid, ⟨hnb, hnid⟩, hst⟩ := h
  subst htok hnid
  exact ⟨ma, tok, acfg, rfl, hacfg, hma0, hst.2.symm, hst.1.symm⟩

/-- Success shape of `deposit`: the post-state overwrites the existing
position at the same index with only the collateral amount increased. -/
theorem deposit_ok_shape {st : State} {s : String} {i : Nat} {c : Asset}
    {st' : State} {msgs : List Msg}
    (h : deposit st s i c = Outcome.ok (st', msgs)) :
    ∃ pos, st.positions i = some pos ∧ s = pos.owner ∧
      c.info = pos.collateral.info ∧ c.amount ≠ 0 ∧
      pos.collateral.amount + c.amount < u128Bound ∧
      st' = store_position st i
        { pos with collateral :=
            { pos.collateral with amount := pos.collateral.amount + c.amount } } ∧
      msgs = [] := by
  unfold deposit at h
  simp only [Outcome.bind_eq_ok, failIf_eq_ok, read_position_eq_ok,
    assert_collateral_eq_ok, asset_token_of_eq_ok, read_asset_config_eq_ok,
    assert_migrated_eq_ok, assert_revoked_eq_ok, addU_eq_ok,
    Outcome.ok.injEq, Prod.mk.injEq, not_not, ne_eq] at h
  obtain ⟨pos, hpos, u0, hown, u1, ⟨hinfo, hnz⟩, ci, hci, pm, hpm, tok, htok,
    acfg, hacfg, u2, hmig, na, ⟨hna, rfl⟩, hst⟩ := h
  exact ⟨pos, hpos, hown, hinfo, hnz, hna, hst.1.symm, hst.2.symm⟩

/-- Success shape of `withdraw`: the post-state is either unchanged or an
overwrite of the existing position at the same index with a reduced
collateral amount. -/
theorem withdraw_ok_shape {st : State} {s : String} {i : Nat}
    {copt : Option Asset} {st' : State} {msgs : List Msg}
    (h : withdraw st s i copt = Outcome.ok (st', msgs)) :
    ∃ pos newAmt, st.positions i = some pos ∧
      (st' = st ∨ st' = store_position st i
        { pos with collateral := { pos.collateral with amount := newAmt } }) := by
  unfold withdraw at h
  cases copt with
  | none =>
    simp only [Outcome.bind_eq_ok, failIf_eq_ok, read_position_eq_ok,
      assert_collateral_eq_ok, asset_token_of_eq_ok, read_asset_config_eq_ok,
      checked_sub_eq_ok, Outcome.ok.injEq, Prod.mk.injEq] at h
    obtain ⟨pos, hpos, u0, hown, w, hw, tok, htok, acfg, hacfg, ap, hap, ci,
      hci, ca, ⟨hca, rfl⟩, dv, hdv, av, hav, x1, hx1, x2, hx2, u1, hgu,
      hst1, hst2⟩ := h
    refine ⟨pos, pos.collateral.amount - w.amount, hpos, ?_⟩
    by_cases hz : pos.collateral.amount - w.amount = 0 ∧ pos.asset.amount = 0
    · right
      exact hst1.symm.trans (if_pos hz)
    · left
      exact hst1.symm.trans (if_neg hz)
  | some cw =>
    simp only [Outcome.bind_eq_ok, failIf_eq_ok, read_position_eq_ok,
      assert_collateral_eq_ok, asset_token_of_eq_ok, read_asset_config_eq_ok,
      checked_sub_eq_ok, Outcome.ok.injEq, Prod.mk.injEq] at h
    obtain ⟨pos, hpos, u0, hown, u1, ⟨hinfo2, hnz2⟩, u2, hle, w, rfl, tok,
      htok, acfg, hacfg, ap, hap, ci, hci, ca, ⟨hca, rfl⟩, dv, hdv, av, hav,
      x1, hx1, x2, hx2, u3, hgu, hst1, hst2⟩ := h
    refine ⟨pos, pos.collateral.amount - cw.amount, hpos, ?_⟩
    by_cases hz : pos.collateral.amount - cw.amount = 0 ∧ pos.asset.amount = 0
    · right
      exact hst1.symm.trans (if_pos hz)
    · left
      exact hst1.symm.trans (if_neg hz)

/-- Success shape of `mint`: the post-state overwrites the existing
position at the same index with only the synthetic amount increased. -/
theorem mint_ok_shape {st : State} {s : String} {i : Nat} {a : Asset}
    {st' : State} {msgs : List Msg}
    (h : mint st s i a = Outcome.ok (st', msgs)) :
    ∃ pos, st.positions i = some pos ∧
      st' = store_position st i
        { pos with asset :=
            { pos.asset with amount := pos.asset.amount + a.amount } } := by
  unfold mint at h
  simp only [Outcome.bind_eq_ok, failIf_eq_ok, read_position_eq_ok,
    assert_asset_eq_ok, asset_token_of_eq_ok, read_asset_config_eq_ok,
    assert_migrated_eq_ok, assert_revoked_eq_ok, addU_eq_ok,
    Outcome.ok.injEq, Prod.mk.injEq] at h
  obtain ⟨pos, hpos, u0, hown, u1, ⟨hainfo, hanz⟩, tok, htok, acfg, hacfg, u2, hmig,
    ci, hci, pm, hpm, ap, hap, aa, ⟨haa, rfl⟩, dv, hdv, av, hav, x1, hx1, x2,
    hx2, u3, hgu, na, ⟨hna, rfl⟩, hst⟩ := h
  exact ⟨pos, hpos, hst.1.symm⟩

/-- The write-through index invariant: every position in the ledger is a
member of both secondary indices under its owner and its synthetic
asset. -/
def IndexInv (st : State) : Prop :=
  ∀ i p, st.positions i = some p →
    st.indexByUser p.owner i = true ∧ st.indexByAsset p.asset.info i = true

theorem indexInv_create_position {st : State} {idxv : Nat} {p : Position}
    (hInv : IndexInv st) : IndexInv (create_position st idxv p) := by
  intro j q hq
  simp only [create_position] at hq ⊢
  by_cases hj : j = idxv
  · subst hj
    rw [if_pos rfl] at hq
    obtain rfl : p = q := by cases hq; rfl
    constructor
    · rw [if_pos ⟨rfl, rfl⟩]
    · rw [if_pos ⟨rfl, rfl⟩]
  · rw [if_neg hj] at hq
    have h2 := hInv j q hq
    constructor
    · split
      · rfl
      · exact h2.1
    · split
      · rfl
      · exact h2.2

theorem indexInv_store_position {st : State} {i : Nat} {p1 p0 : Position}
    (hInv : IndexInv st) (h0 : st.positions i = some p0)
    (hown : p1.owner = p0.owner) (hinfo : p1.asset.info = p0.asset.info) :
    IndexInv (store_position st i p1) := by
  intro j q hq
  simp only [store_position] at hq ⊢
  by_cases hj : j = i
  · subst hj
    rw [if_pos rfl] at hq
    obtain rfl : p1 = q := by cases hq; rfl
    rw [hown, hinfo]
    exact hInv j p0 h0
  · rw [if_neg hj] at hq
    exact hInv j q hq

theorem indexInv_store_position_idx {st : State} {n : Nat}
    (h : IndexInv st) : IndexInv (store_position_idx st n) := h

theorem indexInv_applyOp (st : State) (op : Op) (h : IndexInv st) :
    IndexInv (applyOp st op) := by
  unfold applyOp
  cases op with
  | openPos s c a r =>
    cases hstep : step st (Op.openPos s c a r) with
    | err e => exact h
    | panic m => exact h
    | ok out =>
      obtain ⟨st', msgs⟩ := out
      obtain ⟨ma, tok, acfg, ha, hacfg, hma, hmsgs, rfl⟩ :=
        open_position_ok_shape hstep
      exact indexInv_store_position_idx (indexInv_create_position h)
  | depositOp s i c =>
    cases hstep : step st (Op.depositOp s i c) with
    | err e => exact h
    | panic m => exact h
    | ok out =>
      obtain ⟨st', msgs⟩ := out
      obtain ⟨pos, hpos, hown, hinfo, hnz, hna, rfl, rfl⟩ :=
        deposit_ok_shape hstep
      exact indexInv_store_position h hpos rfl rfl
  | withdrawOp s i copt =>
    cases hstep : step st (Op.withdrawOp s i copt) with
    | err e => exact h
    | panic m => exact h
    | ok out =>
      obtain ⟨st', msgs⟩ := out
      obtain ⟨pos, newAmt, hpos, hcase⟩ := withdraw_ok_shape hstep
      rcases hcase with rfl | rfl
      · exact h
      · exact indexInv_store_position h hpos rfl rfl
  | mintOp s i a =>
    cases hstep : step st (Op.mintOp s i a) with
    | err e => exact h
    | panic m => exact h
    | ok out =>
      obtain ⟨st', msgs⟩ := out
      obtain ⟨pos, hpos, rfl⟩ := mint_ok_shape hstep
      exact indexInv_store_position h hpos rfl rfl

theorem indexInv_foldl (ops : List Op) (st : State) (h : IndexInv st) :
    IndexInv (List.foldl applyOp st ops) := by
  induction ops generalizing st with
  | nil => exact h
  | cons op ops ih => exact ih (applyOp st op) (indexInv_applyOp st op h)

/-- The native collateral denomination used by the concrete test states. -/
def uusd : AssetInfo := AssetInfo.native ("uusd")

/-- The synthetic token used by the concrete test states. -/
def mAAPL : AssetInfo := AssetInfo.token ("mAAPL")

/-- Asset config of the synthetic token: minimum collateral ratio 1.5,
not migrated. -/
def stdAssetConfig : AssetConfig :=
  { token := "mAAPL", min_collateral_ratio := 15 * 10 ^ 17, end_price := none }

/-- The position of the spec's withdraw scenario: collateral 1000 uusd,
synthetic 1000 mAAPL. -/
def stdPos : Position :=
  { idx := 1
    owner := "alice"
    collateral := { info := uusd, amount := 1000 }
    asset := { info := mAAPL, amount := 1000 } }

/-- Concrete state realising the spec's scenarios: position 1 as
`stdPos`, counter at 2, collateral price 10, synthetic price 5,
risk multiplier 1.0, everything fresh and unrevoked. -/
def stdState : State :=
  { positions := fun i => if i = 1 then some stdPos else none
    indexByUser := fun o i => decide (o = "alice" ∧ i = 1)
    indexByAsset := fun a i => decide (a = mAAPL ∧ i = 1)
    positionIdx := 2
    assetConfigs := fun t => if t = "mAAPL" then some stdAssetConfig else none
    assetOracle := fun a =>
      if a = mAAPL then some { price := 5 * 10 ^ 18, fresh := true } else none
    collOracle := fun a =>
      if a = uusd then
        some { price := 10 * 10 ^ 18, multiplier := oneDec, revoked := false, fresh := true }
      else none }

/-- The withdrawal of the spec's boundary scenario: 250 uusd. -/
def wd250 : Asset := { info := uusd, amount := 250 }

/-- A 500 uusd deposit used by concrete instances. -/
def cdep : Asset := { info := uusd, amount := 500 }

/-- Concrete state holding a position whose synthetic asset is recorded
as a native denomination (reachable only through raw storage, but the
operations must still be total on it). -/
def stNative : State :=
  { positions := fun i =>
      if i = 2 then
        some { idx := 2
               owner := "bob"
               collateral := { info := uusd, amount := 100 }
               asset := { info := AssetInfo.native ("uluna"), amount := 5 } }
      else none
    indexByUser := fun _ _ => false
    indexByAsset := fun _ _ => false
    positionIdx := 3
    assetConfigs := fun t => if t = "mAAPL" then some stdAssetConfig else none
    assetOracle := fun _ => none
    collOracle := fun a =>
      if a = uusd then
        some { price := 10 * 10 ^ 18, multiplier := oneDec, revoked := false, fresh := true }
      else none }

/-- Concrete state whose position 3 holds the maximal `Uint128`
collateral amount, so that one more deposited unit overflows. -/
def stOv : State :=
  { stdState with
    positions := fun i =>
      if i = 3 then
        some { idx := 3
               owner := "carol"
               collateral := { info := uusd, amount := 2 ^ 128 - 1 }
               asset := { info := mAAPL, amount := 10 } }
      else none }

/-- Whether a lifecycle call is an `open`. -/
def isOpenOp (op : Op) : Prop := ∃ s c a r, op = Op.openPos s c a r

/-- The solvency engine's required collateral, computed in the same
fixed-point steps as positions.rs: synthetic amount × (synthetic price /
collateral price) × minimum collateral ratio × multiplier, flooring at
each `Uint128 × Decimal` multiplication. -/
def requiredCollateral (syntheticAmount assetPrice collateralPrice minRatio multiplier : Nat) :
    Outcome Nat := do
  let d ← decimal_division assetPrice collateralPrice
  let v ← mulDec syntheticAmount d
  let x ← mulDec v minRatio
  mulDec x multiplier

/-- The open operation's mint amount, computed in the same fixed-point
steps as positions.rs: collateral amount × (collateral price /
synthetic price) × (1 / target ratio). -/
def mintAmountOf (collateralAmount collateralPrice assetPrice ratio : Nat) :
    Outcome Nat := do
  let p ← decimal_division collateralPrice assetPrice
  let rinv ← reverse_decimal ratio
  let t ← mulDec collateralAmount p
  mulDec t rinv

/-- Claim C1 (counterexample evaluation): at the spec's own withdraw
scenario (collateral 1000, synthetic 1000, required collateral 750), the
withdrawal of 250 succeeds but returns the pre-state unchanged — the
ledger still records the old collateral amount 1000 rather than 750,
because the persistence write runs only in the zero-balance branch. -/
theorem c1_withdraw_not_persisted :
    withdraw stdState ("alice") 1 (some wd250) =
      Outcome.ok (stdState, [Msg.transfer wd250 ("alice")]) ∧
    (stdState.positions 1).map (fun p => p.collateral.amount) = some 1000 := by
  constructor
  · rfl
  · rfl

/-- Claim C4: a successful `open` bumps the position counter by exactly
one and issues the pre-state's counter value as the new position's id; a
successful `deposit`, `withdraw` or `mint` leaves the counter unchanged;
and any failing call leaves the whole state (hence the counter)
unchanged under the host's all-or-nothing commit. -/
theorem c4_position_idx_counter (st : State) (op : Op) :
    (∀ st' msgs, step st op = Outcome.ok (st', msgs) →
      (isOpenOp op → st'.positionIdx = st.positionIdx + 1 ∧
        ∃ p, st'.positions st.positionIdx = some p ∧ p.idx = st.positionIdx) ∧
      (¬ isOpenOp op → st'.positionIdx = st.positionIdx)) ∧
    ((∀ st' msgs, ¬ step st op = Outcome.ok (st', msgs)) → applyOp st op = st) := by
  constructor
  · intro st' msgs hstep
    cases op with
    | openPos s c a r =>
      obtain ⟨ma, tok, acfg, ha, hacfg, hma, hmsgs, rfl⟩ :=
        open_position_ok_shape hstep
      constructor
      · intro _
        refine ⟨rfl, ?_⟩
        refine ⟨{ idx := st.positionIdx
                  owner := s
                  collateral := { info := c.info, amount := c.amount }
                  asset := { info := a, amount := ma } }, ?_, rfl⟩
        simp [store_position_idx, create_position]
      · intro hno
        exact absurd ⟨s, c, a, r, rfl⟩ hno
    | depositOp s i c =>
      obtain ⟨pos, hpos, hown, hinfo, hnz, hna, rfl, rfl⟩ :=
        deposit_ok_shape hstep
      refine ⟨?_, fun _ => rfl⟩
      intro hop
      obtain ⟨s2, c2, a2, r2, heq⟩ := hop
      cases heq
    | withdrawOp s i copt =>
      obtain ⟨pos, newAmt, hpos, hcase⟩ := withdraw_ok_shape hstep
      refine ⟨?_, fun _ => ?_⟩
      · intro hop
        obtain ⟨s2, c2, a2, r2, heq⟩ := hop
        cases heq
      · rcases hcase with rfl | rfl
        · rfl
        · rfl
    | mintOp s i a =>
      obtain ⟨pos, hpos, rfl⟩ := mint_ok_shape hstep
      refine ⟨?_, fun _ => rfl⟩
      intro hop
      obtain ⟨s2, c2, a2, r2, heq⟩ := hop
      cases heq
  · intro hfail
    unfold applyOp
    cases hstep : step st op with
    | ok out =>
      obtain ⟨st2, msgs2⟩ := out
      exact absurd hstep (hfail st2 msgs2)
    | err e => rfl
    | panic m => rfl

theorem c4_witness :
    (applyOp stdState (Op.openPos ("alice") { info := uusd, amount := 1000 }
        mAAPL (2 * 10 ^ 18))).positionIdx = stdState.positionIdx + 1 :=
  (((c4_position_idx_counter stdState (Op.openPos ("alice")
        { info := uusd, amount := 1000 } mAAPL (2 * 10 ^ 18))).1
      (applyOp stdState (Op.openPos ("alice") { info := uusd, amount := 1000 }
        mAAPL (2 * 10 ^ 18)))
      ([Msg.mintTo ("mAAPL") ("alice") 1000]) (by rfl)).1
    ⟨_, _, _, _, rfl⟩).1

/-- Claim C7: starting from instantiation, after any sequence of
lifecycle calls every position present in the ledger is a member of both
secondary indices (owner index and synthetic-asset index) — a ledger
entry without its index entries is never observable, because
`create_position` writes all three in one logical unit and the other
operations overwrite in place preserving owner and synthetic asset. -/
theorem c7_index_write_through
    (ac : String → Option AssetConfig) (ao : AssetInfo → Option AssetOracleEntry)
    (co : AssetInfo → Option CollateralOracleEntry) (ops : List Op) :
    IndexInv (List.foldl applyOp (instantiate ac ao co) ops) := by
  refine indexInv_foldl ops _ ?_
  intro i p hp
  simp [instantiate] at hp

theorem c7_witness :
    IndexInv (List.foldl applyOp
      (instantiate stdState.assetConfigs stdState.assetOracle stdState.collOracle)
      [Op.openPos ("alice") { info := uusd, amount := 1000 } mAAPL (2 * 10 ^ 18)]) :=
  c7_index_write_through stdState.assetConfigs stdState.assetOracle
    stdState.collOracle
    [Op.openPos ("alice") { info := uusd, amount := 1000 } mAAPL (2 * 10 ^ 18)]

/-- Claim C8: a successful `deposit` stores the position with its
collateral amount strictly increased by exactly the deposited amount,
while the collateral identity, the synthetic holding, the owner and the
id are unchanged. -/
theorem c8_deposit_adds_collateral (st : State) (sender : String) (idx : Nat)
    (c : Asset) (st' : State) (msgs : List Msg) (pos : Position)
    (hpos : st.positions idx = some pos)
    (h : deposit st sender idx c = Outcome.ok (st', msgs)) :
    ∃ pos', st'.positions idx = some pos' ∧
      pos'.collateral.amount = pos.collateral.amount + c.amount ∧
      pos.collateral.amount < pos'.collateral.amount ∧
      pos'.collateral.info = pos.collateral.info ∧
      pos'.asset = pos.asset ∧ pos'.owner = pos.owner ∧ pos'.idx = pos.idx := by
  obtain ⟨pos0, hpos0, hown, hinfo, hnz, hlt, rfl, rfl⟩ := deposit_ok_shape h
  rw [hpos] at hpos0
  injection hpos0 with he
  subst he
  refine ⟨{ pos with collateral :=
      { pos.collateral with amount := pos.collateral.amount + c.amount } },
    ?_, rfl, ?_, rfl, rfl, rfl, rfl⟩
  · simp [store_position]
  · show pos.collateral.amount < pos.collateral.amount + c.amount
    omega

theorem c8_witness :
    ∃ pos', (applyOp stdState (Op.depositOp ("alice") 1 cdep)).positions 1 = some pos' ∧
      pos'.collateral.amount = stdPos.collateral.amount + cdep.amount ∧
      stdPos.collateral.amount < pos'.collateral.amount ∧
      pos'.collateral.info = stdPos.collateral.info ∧
      pos'.asset = stdPos.asset ∧ pos'.owner = stdPos.owner ∧ pos'.idx = stdPos.idx :=
  c8_deposit_adds_collateral stdState ("alice") 1 cdep
    (applyOp stdState (Op.depositOp ("alice") 1 cdep)) [] stdPos (by rfl) (by rfl)

/-- Claim C9: when the synthetic asset is recorded as a native
denomination, `open_position`, `withdraw` and `mint` all abort with the
unrecoverable `DO NOT ENTER HERE` panic instead of returning a
structured error. -/
theorem c9_native_asset_panics :
    open_position stNative ("alice") { info := uusd, amount := 50 }
        (AssetInfo.native ("uluna")) (2 * 10 ^ 18) =
      Outcome.panic ("DO NOT ENTER HERE") ∧
    withdraw stNative ("bob") 2 (some { info := uusd, amount := 10 }) =
      Outcome.panic ("DO NOT ENTER HERE") ∧
    mint stNative ("bob") 2 { info := AssetInfo.native ("uluna"), amount := 5 } =
      Outcome.panic ("DO NOT ENTER HERE") := by
  refine ⟨?_, ?_, ?_⟩
  · rfl
  · rfl
  · rfl

/-- Claim C2: under the withdraw preconditions (existing position, owner
caller, matching non-zero amount within the balance, token synthetic
asset with a non-migrated config, fresh prices), a withdrawal succeeds
exactly when the remaining collateral is at least the engine's required
collateral, and otherwise fails with the insufficient-collateral error
(`Cannot withdraw collateral over than minimum collateral ratio`); in
particular leaving exactly the required collateral succeeds and one unit
below it fails. -/
theorem c2_withdraw_boundary
    (st : State) (idx : Nat) (pos : Position) (c : Asset) (tok : String)
    (acfg : AssetConfig) (ao : AssetOracleEntry) (co : CollateralOracleEntry)
    (req : Nat)
    (hpos : st.positions idx = some pos)
    (hinfo : c.info = pos.collateral.info)
    (hnz : c.amount ≠ 0)
    (hle : c.amount ≤ pos.collateral.amount)
    (htok : pos.asset.info = AssetInfo.token tok)
    (hcfg : st.assetConfigs tok = some acfg)
    (hmig : acfg.end_price = none)
    (hao : st.assetOracle pos.asset.info = some ao)
    (haof : ao.fresh = true)
    (hco : st.collOracle pos.collateral.info = some co)
    (hcof : co.fresh = true)
    (hreq : requiredCollateral pos.asset.amount ao.price co.price
        acfg.min_collateral_ratio co.multiplier = Outcome.ok req) :
    (req ≤ pos.collateral.amount - c.amount →
      ∃ out, withdraw st pos.owner idx (some c) = Outcome.ok out) ∧
    (pos.collateral.amount - c.amount < req →
      withdraw st pos.owner idx (some c) =
        Outcome.err ("Cannot withdraw collateral over than minimum collateral ratio")) := by
  simp only [requiredCollateral, Outcome.bind_eq_ok] at hreq
  obtain ⟨d, hd, v, hv, x, hx, hy⟩ := hreq
  have hown : ¬ (pos.owner ≠ pos.owner) := fun hh => hh rfl
  have hnl : ¬ (pos.collateral.amount < c.amount) := Nat.not_lt.mpr hle
  have hao2 : st.assetOracle (AssetInfo.token tok) = some ao := htok ▸ hao
  constructor
  · intro hge
    have hno : ¬ (pos.collateral.amount - c.amount < req) := Nat.not_lt.mpr hge
    refine ⟨((if pos.collateral.amount - c.amount = 0 ∧ pos.asset.amount = 0 then
        store_position st idx { pos with collateral :=
          { pos.collateral with amount := pos.collateral.amount - c.amount } }
      else st), [Msg.transfer c pos.owner]), ?_⟩
    simp [withdraw, read_position, hpos, failIf, hown, assert_collateral,
      hinfo, hnz, hnl, asset_token_of, htok, read_asset_config, hcfg,
      load_asset_price, hao, hao2, haof, load_collateral_info, hco, hcof,
      checked_sub, hle, hmig, hd, hv, hx, hy, hno]
  · intro hlt
    simp [withdraw, read_position, hpos, failIf, hown, assert_collateral,
      hinfo, hnz, hnl, asset_token_of, htok, read_asset_config, hcfg,
      load_asset_price, hao, hao2, haof, load_collateral_info, hco, hcof,
      checked_sub, hle, hmig, hd, hv, hx, hy, hlt]

theorem c2_witness :
    ∃ out, withdraw stdState ("alice") 1 (some wd250) = Outcome.ok out :=
  (c2_withdraw_boundary stdState 1 stdPos wd250 ("mAAPL") stdAssetConfig
      { price := 5 * 10 ^ 18, fresh := true }
      { price := 10 * 10 ^ 18, multiplier := oneDec, revoked := false, fresh := true }
      750 (by rfl) (by rfl) (by decide) (by decide) (by rfl) (by rfl) (by rfl)
      (by rfl) (by rfl) (by rfl) (by rfl) (by rfl)).1 (by decide)

/-- Claim C3: under the open preconditions (non-zero collateral, listed
and unrevoked collateral, non-migrated synthetic token, ratio at least
the scaled minimum, fresh prices), the mint amount is collateral ×
(collateral price / synthetic price) × (1 / target ratio) computed in
fixed point; a zero result fails with `collateral is too small`, and a
non-zero result stores the new position with the given collateral and
synthetic amount equal to the mint amount and emits a token-mint
instruction of exactly that amount to the sender. -/
theorem c3_open_mint_amount
    (st : State) (sender : String) (c : Asset) (tok : String) (r : Nat)
    (acfg : AssetConfig) (ao : AssetOracleEntry) (co : CollateralOracleEntry)
    (m ma : Nat)
    (hnz : c.amount ≠ 0)
    (hco : st.collOracle c.info = some co)
    (hcof : co.fresh = true)
    (hcor : co.revoked = false)
    (hcfg : st.assetConfigs tok = some acfg)
    (hmig : acfg.end_price = none)
    (hm : decimal_multiplication acfg.min_collateral_ratio co.multiplier = Outcome.ok m)
    (hr : ¬ (r < m))
    (hao : st.assetOracle (AssetInfo.token tok) = some ao)
    (haof : ao.fresh = true)
    (hma : mintAmountOf c.amount co.price ao.price r = Outcome.ok ma)
    (hidx : st.positionIdx + 1 < u128Bound) :
    (ma = 0 → open_position st sender c (AssetInfo.token tok) r =
      Outcome.err ("collateral is too small")) ∧
    (ma ≠ 0 →
      open_position st sender c (AssetInfo.token tok) r =
        Outcome.ok
          (store_position_idx
            (create_position st st.positionIdx
              { idx := st.positionIdx
                owner := sender
                collateral := { info := c.info, amount := c.amount }
                asset := { info := AssetInfo.token tok, amount := ma } })
            (st.positionIdx + 1),
          [Msg.mintTo acfg.token sender ma]) ∧
      (store_position_idx
        (create_position st st.positionIdx
          { idx := st.positionIdx
            owner := sender
            collateral := { info := c.info, amount := c.amount }
            asset := { info := AssetInfo.token tok, amount := ma } })
        (st.positionIdx + 1)).positions st.positionIdx =
        some { idx := st.positionIdx
               owner := sender
               collateral := { info := c.info, amount := c.amount }
               asset := { info := AssetInfo.token tok, amount := ma } }) := by
  simp only [mintAmountOf, Outcome.bind_eq_ok] at hma
  obtain ⟨p, hp, rinv, hrinv, t, ht, hmam⟩ := hma
  constructor
  · intro h0
    subst h0
    simp [open_position, failIf, hnz, load_collateral_info, hco, hcof,
      assert_revoked_collateral, hcor, asset_token_of, read_asset_config,
      hcfg, assert_migrated_asset, hmig, hm, hr, load_asset_price, hao, haof,
      hp, hrinv, ht, hmam]
  · intro hne
    refine ⟨?_, ?_⟩
    · simp [open_position, failIf, hnz, load_collateral_info, hco, hcof,
        assert_revoked_collateral, hcor, asset_token_of, read_asset_config,
        hcfg, assert_migrated_asset, hmig, hm, hr, load_asset_price, hao,
        haof, hp, hrinv, ht, hmam, hne, read_position_idx, addU, hidx]
    · simp [store_position_idx, create_position]

theorem c3_witness :
    open_position stdState ("alice") { info := uusd, amount := 1000 } mAAPL
        (2 * 10 ^ 18) =
      Outcome.ok
        (store_position_idx
          (create_position stdState 2
            { idx := 2
              owner := "alice"
              collateral := { info := uusd, amount := 1000 }
              asset := { info := mAAPL, amount := 1000 } }) 3,
        [Msg.mintTo ("mAAPL") ("alice") 1000]) ∧
    (store_position_idx
      (create_position stdState 2
        { idx := 2
          owner := "alice"
          collateral := { info := uusd, amount := 1000 }
          asset := { info := mAAPL, amount := 1000 } }) 3).positions 2 =
      some { idx := 2
             owner := "alice"
             collateral := { info := uusd, amount := 1000 }
             asset := { info := mAAPL, amount := 1000 } } :=
  (c3_open_mint_amount stdState ("alice") { info := uusd, amount := 1000 }
      ("mAAPL") (2 * 10 ^ 18) stdAssetConfig
      { price := 5 * 10 ^ 18, fresh := true }
      { price := 10 * 10 ^ 18, multiplier := oneDec, revoked := false, fresh := true }
      (15 * 10 ^ 17) 1000 (by decide) (by rfl) (by rfl) (by rfl) (by rfl)
      (by rfl) (by rfl) (by decide) (by rfl) (by rfl) (by rfl)
      (by decide)).2 (by decide)

/-- The migrated-asset fixture: position 1 holds 1000 uusd collateral
against 100 units of a synthetic token whose config carries an end
price; the oracle multiplier is 2.0, so pinning it to 1.0 is observable. -/
def mgPos : Position :=
  { idx := 1
    owner := "alice"
    collateral := { info := uusd, amount := 1000 }
    asset := { info := mAAPL, amount := 100 } }

def stMig : State :=
  { positions := fun i => if i = 1 then some mgPos else none
    indexByUser := fun o i => decide (o = "alice" ∧ i = 1)
    indexByAsset := fun a i => decide (a = mAAPL ∧ i = 1)
    positionIdx := 2
    assetConfigs := fun t =>
      if t = "mAAPL" then
        some { token := "mAAPL", min_collateral_ratio := 15 * 10 ^ 17,
               end_price := some (5 * 10 ^ 18) }
      else none
    assetOracle := fun a =>
      if a = mAAPL then some { price := 5 * 10 ^ 18, fresh := true } else none
    collOracle := fun a =>
      if a = uusd then
        some { price := 10 * 10 ^ 18, multiplier := 2 * 10 ^ 18,
               revoked := false, fresh := true }
      else none }

/-- Claim C5: for a migrated synthetic asset (end price set), open,
deposit and mint all fail with `AssetMigrated`, while withdraw proceeds
and judges solvency with the collateral risk multiplier pinned to 1.0
instead of the oracle multiplier. -/
theorem c5_migrated_asymmetry
    (st : State) (idx : Nat) (pos : Position) (c : Asset) (mAsset : Asset)
    (tok : String) (acfg : AssetConfig) (ep : Nat)
    (ao : AssetOracleEntry) (co : CollateralOracleEntry) (req r : Nat)
    (hcfg : st.assetConfigs tok = some acfg)
    (hmig : acfg.end_price = some ep)
    (hpos : st.positions idx = some pos)
    (hinfo : c.info = pos.collateral.info)
    (hnz : c.amount ≠ 0)
    (hle : c.amount ≤ pos.collateral.amount)
    (htok : pos.asset.info = AssetInfo.token tok)
    (hminfo : mAsset.info = pos.asset.info)
    (hmnz : mAsset.amount ≠ 0)
    (hco : st.collOracle pos.collateral.info = some co)
    (hcof : co.fresh = true)
    (hcor : co.revoked = false)
    (hao : st.assetOracle pos.asset.info = some ao)
    (haof : ao.fresh = true)
    (hreq : requiredCollateral pos.asset.amount ao.price co.price
        acfg.min_collateral_ratio oneDec = Outcome.ok req) :
    open_position st pos.owner c (AssetInfo.token tok) r =
      Outcome.err ("AssetMigrated") ∧
    deposit st pos.owner idx c = Outcome.err ("AssetMigrated") ∧
    mint st pos.owner idx mAsset = Outcome.err ("AssetMigrated") ∧
    (req ≤ pos.collateral.amount - c.amount →
      ∃ out, withdraw st pos.owner idx (some c) = Outcome.ok out) ∧
    (pos.collateral.amount - c.amount < req →
      withdraw st pos.owner idx (some c) =
        Outcome.err ("Cannot withdraw collateral over than minimum collateral ratio")) := by
  simp only [requiredCollateral, Outcome.bind_eq_ok] at hreq
  obtain ⟨d, hd, v, hv, x, hx, hy⟩ := hreq
  have hown : ¬ (pos.owner ≠ pos.owner) := fun hh => hh rfl
  have hnl : ¬ (pos.collateral.amount < c.amount) := Nat.not_lt.mpr hle
  have hao2 : st.assetOracle (AssetInfo.token tok) = some ao := htok ▸ hao
  refine ⟨?_, ?_, ?_, ?_, ?_⟩
  · simp [open_position, failIf, hnz, hinfo, load_collateral_info, hco, hcof,
      assert_revoked_collateral, hcor, asset_token_of, read_asset_config,
      hcfg, assert_migrated_asset, hmig]
  · simp [deposit, read_position, hpos, failIf, hown, assert_collateral,
      hinfo, hnz, load_collateral_info, hco, assert_revoked_collateral, hcor,
      asset_token_of, htok, read_asset_config, hcfg, assert_migrated_asset,
      hmig]
  · simp [mint, read_position, hpos, failIf, hown, assert_asset, hminfo,
      hmnz, asset_token_of, htok, read_asset_config, hcfg,
      assert_migrated_asset, hmig]
  · intro hge
    have hno : ¬ (pos.collateral.amount - c.amount < req) := Nat.not_lt.mpr hge
    refine ⟨((if pos.collateral.amount - c.amount = 0 ∧ pos.asset.amount = 0 then
        store_position st idx { pos with collateral :=
          { pos.collateral with amount := pos.collateral.amount - c.amount } }
      else st), [Msg.transfer c pos.owner]), ?_⟩
    simp [withdraw, read_position, hpos, failIf, hown, assert_collateral,
      hinfo, hnz, hnl, asset_token_of, htok, read_asset_config, hcfg,
      load_asset_price, hao2, haof, load_collateral_info, hco, hcof,
      checked_sub, hle, hmig, hd, hv, hx, hy, hno]
  · intro hlt
    simp [withdraw, read_position, hpos, failIf, hown, assert_collateral,
      hinfo, hnz, hnl, asset_token_of, htok, read_asset_config, hcfg,
      load_asset_price, hao2, haof, load_collateral_info, hco, hcof,
      checked_sub, hle, hmig, hd, hv, hx, hy, hlt]

theorem c5_witness :
    open_position stMig ("alice") { info := uusd, amount := 925 } mAAPL
        (2 * 10 ^ 18) = Outcome.err ("AssetMigrated") ∧
    (∃ out, withdraw stMig ("alice") 1 (some { info := uusd, amount := 925 }) =
      Outcome.ok out) :=
  ⟨(c5_migrated_asymmetry stMig 1 mgPos { info := uusd, amount := 925 }
      { info := mAAPL, amount := 10 } ("mAAPL")
      { token := "mAAPL", min_collateral_ratio := 15 * 10 ^ 17,
        end_price := some (5 * 10 ^ 18) } (5 * 10 ^ 18)
      { price := 5 * 10 ^ 18, fresh := true }
      { price := 10 * 10 ^ 18, multiplier := 2 * 10 ^ 18, revoked := false,
        fresh := true } 75 (2 * 10 ^ 18)
      (by rfl) (by rfl) (by rfl) (by rfl) (by decide) (by decide) (by rfl)
      (by rfl) (by decide) (by rfl) (by rfl) (by rfl) (by rfl) (by rfl)
      (by rfl)).1,
   (c5_migrated_asymmetry stMig 1 mgPos { info := uusd, amount := 925 }
      { info := mAAPL, amount := 10 } ("mAAPL")
      { token := "mAAPL", min_collateral_ratio := 15 * 10 ^ 17,
        end_price := some (5 * 10 ^ 18) } (5 * 10 ^ 18)
      { price := 5 * 10 ^ 18, fresh := true }
      { price := 10 * 10 ^ 18, multiplier := 2 * 10 ^ 18, revoked := false,
        fresh := true } 75 (2 * 10 ^ 18)
      (by rfl) (by rfl) (by rfl) (by rfl) (by decide) (by decide) (by rfl)
      (by rfl) (by decide) (by rfl) (by rfl) (by rfl) (by rfl) (by rfl)
      (by rfl)).2.2.2.1 (by decide)⟩

/-- The stale-oracle fixture: `stdState` with the collateral quote
marked stale. -/
def stStale : State :=
  { stdState with
    collOracle := fun a =>
      if a = uusd then
        some { price := 10 * 10 ^ 18, multiplier := oneDec, revoked := false,
               fresh := false }
      else none }

/-- Claim C10: deposit queries the collateral oracle with freshness not
required, so a stale but available collateral quote lets deposit succeed,
while open, withdraw and mint — which all require a fresh quote — fail
with `StalePrice` on the same oracle state. -/
theorem c10_deposit_stale_tolerance
    (st : State) (idx : Nat) (pos : Position) (c : Asset) (mAsset : Asset)
    (tok : String) (acfg : AssetConfig) (ao : AssetOracleEntry)
    (co : CollateralOracleEntry) (r : Nat)
    (hpos : st.positions idx = some pos)
    (hinfo : c.info = pos.collateral.info)
    (hnz : c.amount ≠ 0)
    (hle : c.amount ≤ pos.collateral.amount)
    (htok : pos.asset.info = AssetInfo.token tok)
    (hminfo : mAsset.info = pos.asset.info)
    (hmnz : mAsset.amount ≠ 0)
    (hcfg : st.assetConfigs tok = some acfg)
    (hmig : acfg.end_price = none)
    (hco : st.collOracle pos.collateral.info = some co)
    (hstale : co.fresh = false)
    (hcor : co.revoked = false)
    (hao : st.assetOracle pos.asset.info = some ao)
    (haof : ao.fresh = true)
    (hsum : pos.collateral.amount + c.amount < u128Bound) :
    deposit st pos.owner idx c =
      Outcome.ok (store_position st idx
        { pos with collateral :=
            { pos.collateral with amount := pos.collateral.amount + c.amount } },
        []) ∧
    open_position st pos.owner c (AssetInfo.token tok) r =
      Outcome.err ("StalePrice") ∧
    withdraw st pos.owner idx (some c) = Outcome.err ("StalePrice") ∧
    mint st pos.owner idx mAsset = Outcome.err ("StalePrice") := by
  have hown : ¬ (pos.owner ≠ pos.owner) := fun hh => hh rfl
  have hnl : ¬ (pos.collateral.amount < c.amount) := Nat.not_lt.mpr hle
  have hao2 : st.assetOracle (AssetInfo.token tok) = some ao := htok ▸ hao
  refine ⟨?_, ?_, ?_, ?_⟩
  · simp [deposit, read_position, hpos, failIf, hown, assert_collateral,
      hinfo, hnz, load_collateral_info, hco, assert_revoked_collateral, hcor,
      asset_token_of, htok, read_asset_config, hcfg, assert_migrated_asset,
      hmig, addU, hsum]
  · simp [open_position, failIf, hnz, hinfo, load_collateral_info, hco,
      hstale]
  · simp [withdraw, read_position, hpos, failIf, hown, assert_collateral,
      hinfo, hnz, hnl, asset_token_of, htok, read_asset_config, hcfg,
      load_asset_price, hao2, haof, load_collateral_info, hco, hstale]
  · simp [mint, read_position, hpos, failIf, hown, assert_asset, hminfo,
      hmnz, asset_token_of, htok, read_asset_config, hcfg,
      assert_migrated_asset, hmig, load_collateral_info, hco, hstale]

theorem c10_witness :
    deposit stStale ("alice") 1 cdep =
      Outcome.ok (store_position stStale 1
        { stdPos with collateral := { stdPos.collateral with amount := 1500 } },
        []) ∧
    open_position stStale ("alice") cdep mAAPL (2 * 10 ^ 18) =
      Outcome.err ("StalePrice") :=
  ⟨(c10_deposit_stale_tolerance stStale 1 stdPos cdep
      { info := mAAPL, amount := 10 } ("mAAPL") stdAssetConfig
      { price := 5 * 10 ^ 18, fresh := true }
      { price := 10 * 10 ^ 18, multiplier := oneDec, revoked := false,
        fresh := false } (2 * 10 ^ 18)
      (by rfl) (by rfl) (by decide) (by decide) (by rfl) (by rfl)
      (by decide) (by rfl) (by rfl) (by rfl) (by rfl) (by rfl) (by rfl)
      (by rfl) (by decide)).1,
   (c10_deposit_stale_tolerance stStale 1 stdPos cdep
      { info := mAAPL, amount := 10 } ("mAAPL") stdAssetConfig
      { price := 5 * 10 ^ 18, fresh := true }
      { price := 10 * 10 ^ 18, multiplier := oneDec, revoked := false,
        fresh := false } (2 * 10 ^ 18)
      (by rfl) (by rfl) (by decide) (by decide) (by rfl) (by rfl)
      (by decide) (by rfl) (by rfl) (by rfl) (by rfl) (by rfl) (by rfl)
      (by rfl) (by decide)).2.1⟩

/-- Claim C6 (counterexample): the collateral addition in deposit aborts
with an unrecoverable panic on `Uint128` overflow instead of failing
with an `ArithmeticError`: depositing 1 unit onto a position holding the
maximal collateral amount panics. -/
theorem c6_arith_counterexample :
    deposit stOv ("carol") 3 { info := uusd, amount := 1 } =
      Outcome.panic ("attempt to add with overflow") := by
  rfl

/-- Claim C6 (amended): the spec-modelled decimal helpers fail with an
`ArithmeticError` on division by zero, and withdraw's checked
subtraction fails with a structured error on underflow; but the plain
`Uint128` additions (deposit's collateral increase, mint's exposure
increase) and the `Uint128 × Decimal` multiplications abort with an
unrecoverable panic on overflow, as the concrete deposit shows. -/
theorem c6_arith_amended :
    (∀ a b : Nat, u128Bound ≤ a + b →
      addU a b = Outcome.panic ("attempt to add with overflow")) ∧
    (∀ a b : Nat, a < b →
      checked_sub a b = Outcome.err ("Cannot Sub with given operands")) ∧
    (∀ a : Nat, decimal_division a 0 =
      Outcome.err ("ArithmeticError: division by zero")) ∧
    (∀ u d : Nat, u128Bound ≤ u * d / decFrac →
      mulDec u d = Outcome.panic ("multiplication overflow")) ∧
    deposit stOv ("carol") 3 { info := uusd, amount := 1 } =
      Outcome.panic ("attempt to add with overflow") := by
  refine ⟨?_, ?_, ?_, ?_, ?_⟩
  · intro a b h
    unfold addU
    rw [if_neg (Nat.not_lt.mpr h)]
  · intro a b h
    unfold checked_sub
    rw [if_neg (Nat.not_le.mpr h)]
  · intro a
    unfold decimal_division
    rw [if_pos rfl]
  · intro u d h
    unfold mulDec
    rw [if_neg (Nat.not_lt.mpr h)]
  · rfl

theorem c6_witness :
    addU (2 ^ 128 - 1) 1 = Outcome.panic ("attempt to add with overflow") :=
  c6_arith_amended.1 (2 ^ 128 - 1) 1 (by decide)

end Melange
